import Mathlib

/-!
Verification of the Notion MCP gateway (src/main.py, src/notion_client.py).

The embedding models the FastAPI `/mcp` endpoint: the bearer-token gate
(`verify_token`), the action dispatcher (the body of `mcp`), and the
client functions of `notion_client.py`.  Outbound HTTP traffic is modelled
by an oracle `Request → Response`; each client call records the request it
issues and returns the parsed JSON body of the oracle's response (the code
calls `r.json()` without inspecting the HTTP status, so the oracle's
status component is ignored, faithfully to the source).

Python values occurring in `parameters` are modelled by the JSON-like
type `JValue`; Python truthiness (`if not x`, `if filter_payload:`,
`bool(x)`) is `JValue.truthy`.  Exceptions that the Python code can raise
while extracting parameters (`p["k"]` → KeyError, `p.get` on a non-dict →
AttributeError / TypeError) are modelled by `PyExn`; an exception escaping
the handler is the outcome `Outcome.pyExn` (FastAPI would surface it as an
internal server error, not as an HTTPException).
-/

namespace NotionMCP

/-- JSON-like values: the model of Python values in `parameters`,
request payloads and response bodies. -/
inductive JValue where
  | null : JValue
  | bool : Bool → JValue
  | num : Int → JValue
  | str : String → JValue
  | arr : List JValue → JValue
  | obj : List (String × JValue) → JValue

/-- Python truthiness: `None`, `False`, `0`, `""`, `[]`, the empty dict are
falsy, everything else is truthy. -/
def JValue.truthy : JValue → Bool
  | .null => false
  | .bool b => b
  | .num n => if n = 0 then false else true
  | .str s => if s = "" then false else true
  | .arr [] => false
  | .arr (_ :: _) => true
  | .obj [] => false
  | .obj (_ :: _) => true

/-- `isinstance(v, dict)`. -/
def JValue.isObj : JValue → Bool
  | .obj _ => true
  | _ => false

/-- `isinstance(v, list)`. -/
def JValue.isArr : JValue → Bool
  | .arr _ => true
  | _ => false

/-- Lookup in a Python dict modelled as an association list. -/
def assocLookup : List (String × JValue) → String → Option JValue
  | [], _ => none
  | (k, v) :: rest, key => if k = key then some v else assocLookup rest key

/-- Python `str(v)` as used in f-strings building URL paths
(`f"{BASE}/pages/{page_id}"`).  Exact for the scalar values (`str`, `int`,
`bool`, `None`); containers are rendered structurally (Python would use
`repr` quoting on their elements, which no modelled path depends on). -/
def JValue.pyStr : JValue → String
  | .null => "None"
  | .bool true => "True"
  | .bool false => "False"
  | .num n => toString n
  | .str s => s
  | .arr xs => "[" ++ String.intercalate ", " (xs.attach.map (fun x => JValue.pyStr x.1)) ++ "]"
  | .obj kvs =>
      "\x7b" ++ String.intercalate ", "
        (kvs.attach.map (fun kv => kv.1.1 ++ ": " ++ JValue.pyStr kv.1.2)) ++ "\x7d"
decreasing_by
  · have h := List.sizeOf_lt_of_mem x.2
    simp only [JValue.arr.sizeOf_spec]
    omega
  · obtain ⟨⟨k, v⟩, hm⟩ := kv
    have h := List.sizeOf_lt_of_mem hm
    simp only [Prod.mk.sizeOf_spec] at h
    simp only [JValue.obj.sizeOf_spec]
    omega

/-- Python exceptions the dispatcher can raise while extracting
parameters. -/
inductive PyExn where
  | keyError : String → PyExn
  | attributeError : PyExn
  | typeError : PyExn
deriving DecidableEq

/-- `p[k]`: KeyError when the key is absent, TypeError when `p` is not a
dict. -/
def pyIndex (p : JValue) (k : String) : Except PyExn JValue :=
  match p with
  | .obj kvs =>
      match assocLookup kvs k with
      | some v => .ok v
      | none => .error (.keyError k)
  | _ => .error .typeError

/-- `p.get(k, dflt)`: the stored value when the key is present (even if it
is `None`), the default otherwise; AttributeError when `p` is not a dict.
`p.get(k)` is `pyGetD p k .null`. -/
def pyGetD (p : JValue) (k : String) (dflt : JValue) : Except PyExn JValue :=
  match p with
  | .obj kvs => .ok ((assocLookup kvs k).getD dflt)
  | _ => .error .attributeError

/-- `p.get(k, dflt) if isinstance(p, dict) else dflt` — the guarded form
the endpoint uses. -/
def getIfDict (p : JValue) (k : String) (dflt : JValue) : JValue :=
  match p with
  | .obj kvs => (assocLookup kvs k).getD dflt
  | _ => dflt

/-- Environment variables read by the two modules. -/
structure Env where
  MCP_TOKEN : Option String
  NOTION_PAGE_ID : Option String
  NOTION_DATABASE_ID : Option String

/-- `if not os.getenv(X)`: an environment string is truthy when set and
non-empty. -/
def envTruthy : Option String → Bool
  | none => false
  | some s => if s = "" then false else true

/-- HTTP methods the Remote Client uses. -/
inductive Method where
  | get : Method
  | post : Method
  | patch : Method
  | delete : Method
deriving DecidableEq

/-- An outbound HTTP request to the external workspace API.  The fixed
headers (external bearer token, pinned version, content type) are attached
identically to every request and are not modelled. -/
structure Request where
  method : Method
  url : String
  payload : Option JValue

/-- The remote's behaviour: HTTP status code and parsed JSON body. -/
def Response := Nat × JValue

/-- The remote as an oracle: what the external API answers to each
request. -/
def Oracle := Request → Response

def BASE : String := "https://api.notion.com/v1"

/-- `_post`: issues a POST and returns `r.json()` — the parsed body,
whatever the status code. -/
def _post (oracle : Oracle) (url : String) (payload : JValue) :
    List Request × JValue :=
  let r : Request := ⟨.post, url, some payload⟩
  ([r], (oracle r).2)

/-- `_patch`: issues a PATCH and returns `r.json()`. -/
def _patch (oracle : Oracle) (url : String) (payload : JValue) :
    List Request × JValue :=
  let r : Request := ⟨.patch, url, some payload⟩
  ([r], (oracle r).2)

/-- `create_page` of notion_client.py. -/
def create_page (env : Env) (oracle : Oracle) (title : JValue) :
    List Request × JValue :=
  let payload : JValue := .obj
    [("parent", .obj [("page_id",
        match env.NOTION_PAGE_ID with
        | some s => .str s
        | none => .null)]),
     ("properties", .obj
       [("title", .arr
         [.obj [("type", .str "text"),
                ("text", .obj [("content", title)])]])])]
  _post oracle (BASE ++ "/pages") payload

/-- `create_task` of notion_client.py. -/
def create_task (env : Env) (oracle : Oracle) (p : JValue) :
    Except PyExn (List Request × JValue) :=
  let db := env.NOTION_DATABASE_ID
  if !envTruthy db then
    .ok ([], .obj [("error", .str "NOTION_DATABASE_ID not set")])
  else
    match pyGetD p "title" (.str "Untitled") with
    | .error e => .error e
    | .ok title =>
      match pyGetD p "due_date" .null with
      | .error e => .error e
      | .ok due_date =>
        let props : List (String × JValue) :=
          [("Name", .obj [("title", .arr [.obj [("text", .obj [("content", title)])]])])]
        let props :=
          if due_date.truthy then
            props ++ [("Due date", .obj [("date", .obj [("start", due_date)])])]
          else props
        let payload : JValue := .obj
          [("parent", .obj [("database_id", .str (db.getD ""))]),
           ("properties", .obj props)]
        .ok (_post oracle (BASE ++ "/pages") payload)

/-- `update_page` of notion_client.py: unguarded `p["page_id"]` and
`p["properties"]`, then a PATCH. -/
def update_page (oracle : Oracle) (p : JValue) :
    Except PyExn (List Request × JValue) :=
  match pyIndex p "page_id" with
  | .error e => .error e
  | .ok page_id =>
    match pyIndex p "properties" with
    | .error e => .error e
    | .ok properties =>
      let payload : JValue := .obj [("properties", properties)]
      .ok (_patch oracle (BASE ++ "/pages/" ++ page_id.pyStr) payload)

/-- `query_database` of notion_client.py. -/
def query_database (env : Env) (oracle : Oracle) (filter_payload : JValue) :
    List Request × JValue :=
  if !envTruthy env.NOTION_DATABASE_ID then
    ([], .obj [("error", .str "NOTION_DATABASE_ID not set")])
  else
    let payload : JValue :=
      if filter_payload.truthy then .obj [("filter", filter_payload)]
      else .obj []
    _post oracle
      (BASE ++ "/databases/" ++ env.NOTION_DATABASE_ID.getD "" ++ "/query")
      payload

/-- `retrieve_page` of notion_client.py: a GET whose parsed body is
returned whatever the status. -/
def retrieve_page (oracle : Oracle) (page_id : JValue) :
    List Request × JValue :=
  let r : Request := ⟨.get, BASE ++ "/pages/" ++ page_id.pyStr, none⟩
  ([r], (oracle r).2)

/-- `archive_page` of notion_client.py. -/
def archive_page (oracle : Oracle) (page_id : JValue) (archived : Bool) :
    List Request × JValue :=
  _patch oracle (BASE ++ "/pages/" ++ page_id.pyStr)
    (.obj [("archived", .bool archived)])

/-- `delete_block` of notion_client.py. -/
def delete_block (oracle : Oracle) (block_id : JValue) :
    List Request × JValue :=
  let r : Request := ⟨.delete, BASE ++ "/blocks/" ++ block_id.pyStr, none⟩
  ([r], (oracle r).2)

/-- `append_block_children` of notion_client.py. -/
def append_block_children (oracle : Oracle) (block_id : JValue)
    (children : JValue) : List Request × JValue :=
  let payload : JValue := .obj [("children", children)]
  let r : Request :=
    ⟨.patch, BASE ++ "/blocks/" ++ block_id.pyStr ++ "/children", some payload⟩
  ([r], (oracle r).2)

/-- `retrieve_block_children` of notion_client.py. -/
def retrieve_block_children (oracle : Oracle) (block_id : JValue) :
    List Request × JValue :=
  let r : Request := ⟨.get, BASE ++ "/blocks/" ++ block_id.pyStr ++ "/children", none⟩
  ([r], (oracle r).2)

/-- `retrieve_database` of notion_client.py. -/
def retrieve_database (oracle : Oracle) (database_id : JValue) :
    List Request × JValue :=
  let r : Request := ⟨.get, BASE ++ "/databases/" ++ database_id.pyStr, none⟩
  ([r], (oracle r).2)

/-- `search` of notion_client.py: payload `{"query": query}` plus
`filter` / `sort` added only when truthy. -/
def search (oracle : Oracle) (query filter sort : JValue) :
    List Request × JValue :=
  let payload : List (String × JValue) := [("query", query)]
  let payload := if filter.truthy then payload ++ [("filter", filter)] else payload
  let payload := if sort.truthy then payload ++ [("sort", sort)] else payload
  _post oracle (BASE ++ "/search") (.obj payload)

/-- The visible result of one `/mcp` request: a 200 success whose body is
the returned dict, an `HTTPException` (status code, detail), or an
uncaught Python exception. -/
inductive Outcome where
  | success : JValue → Outcome
  | httpError : Nat → String → Outcome
  | pyExn : PyExn → Outcome

/-- The HTTP error status of an outcome, if it is an `HTTPException`. -/
def Outcome.statusCode : Outcome → Option Nat
  | .httpError c _ => some c
  | _ => none

/-- `return {"status": "ok", "data": d}`. -/
def okEnvelope (d : JValue) : JValue :=
  .obj [("status", .str "ok"), ("data", d)]

/-- Wrap a client call result in the success envelope, keeping the
requests it issued. -/
def wrapOk (r : List Request × JValue) : List Request × Outcome :=
  (r.1, .success (okEnvelope r.2))

/-- The body of the `/mcp` handler `mcp` of main.py (after the token gate):
the action dispatcher.  Returns the outbound requests issued and the
outcome. -/
def mcp (env : Env) (oracle : Oracle) (action : String) (p : JValue) :
    List Request × Outcome :=
  if action = "create_page" then
    match pyGetD p "title" (.str "Untitled") with
    | .error e => ([], .pyExn e)
    | .ok title => wrapOk (create_page env oracle title)
  else if action = "create_task" then
    match create_task env oracle p with
    | .error e => ([], .pyExn e)
    | .ok r => wrapOk r
  else if action = "update_page" then
    match update_page oracle p with
    | .error e => ([], .pyExn e)
    | .ok r => wrapOk r
  else if action = "query_database" then
    wrapOk (query_database env oracle (getIfDict p "filter" .null))
  else if action = "retrieve_page" then
    let page_id := getIfDict p "page_id" .null
    if !page_id.truthy then
      ([], .httpError 400 "page_id is required for retrieve_page")
    else wrapOk (retrieve_page oracle page_id)
  else if action = "archive_page" then
    let page_id := getIfDict p "page_id" .null
    let archived_flag := getIfDict p "archived" (.bool true)
    if !page_id.truthy then
      ([], .httpError 400 "page_id is required for archive_page")
    else wrapOk (archive_page oracle page_id archived_flag.truthy)
  else if action = "delete_block" then
    let block_id := getIfDict p "block_id" .null
    if !block_id.truthy then
      ([], .httpError 400 "block_id is required for delete_block")
    else wrapOk (delete_block oracle block_id)
  else if action = "append_block_children" then
    let block_id := getIfDict p "block_id" .null
    let children := getIfDict p "children" .null
    if !block_id.truthy || !children.isArr then
      ([], .httpError 400 "block_id and children (list) required for append_block_children")
    else wrapOk (append_block_children oracle block_id children)
  else if action = "retrieve_block_children" then
    let block_id := getIfDict p "block_id" .null
    if !block_id.truthy then
      ([], .httpError 400 "block_id is required for retrieve_block_children")
    else wrapOk (retrieve_block_children oracle block_id)
  else if action = "retrieve_database" then
    let database_id := getIfDict p "database_id" .null
    if !database_id.truthy then
      ([], .httpError 400 "database_id is required for retrieve_database")
    else wrapOk (retrieve_database oracle database_id)
  else if action = "search" then
    let query := getIfDict p "query" .null
    if !query.truthy then
      ([], .httpError 400 "query is required for search")
    else
      wrapOk (search oracle query (getIfDict p "filter" .null)
        (getIfDict p "sort" .null))
  else
    ([], .httpError 400 ("unknown action: " ++ action))

/-- `verify_token` of main.py: pass when `MCP_TOKEN` is unset or empty,
otherwise 401 unless the presented credential equals it exactly. -/
def verify_token (env : Env) (cred : Option String) :
    Except (Nat × String) Unit :=
  if !envTruthy env.MCP_TOKEN then .ok ()
  else
    match cred with
    | none => .error (401, "unauthorized")
    | some c =>
        if c ≠ env.MCP_TOKEN.getD "" then .error (401, "unauthorized")
        else .ok ()

/-- The whole `/mcp` endpoint: the token gate runs as a dependency before
the handler body. -/
def handle (env : Env) (oracle : Oracle) (cred : Option String)
    (action : String) (p : JValue) : List Request × Outcome :=
  match verify_token env cred with
  | .error e => ([], .httpError e.1 e.2)
  | .ok _ => mcp env oracle action p

/-- The action names the dispatcher recognises, in dispatch order. -/
def registry : List String :=
  ["create_page", "create_task", "update_page", "query_database",
   "retrieve_page", "archive_page", "delete_block", "append_block_children",
   "retrieve_block_children", "retrieve_database", "search"]

/-! ### Branch equations of the dispatcher -/

theorem mcp_create_page (env : Env) (oracle : Oracle) (p : JValue) :
    mcp env oracle "create_page" p =
      match pyGetD p "title" (.str "Untitled") with
      | .error e => ([], .pyExn e)
      | .ok title => wrapOk (create_page env oracle title) := rfl

theorem mcp_create_task (env : Env) (oracle : Oracle) (p : JValue) :
    mcp env oracle "create_task" p =
      match create_task env oracle p with
      | .error e => ([], .pyExn e)
      | .ok r => wrapOk r := rfl

theorem mcp_update_page (env : Env) (oracle : Oracle) (p : JValue) :
    mcp env oracle "update_page" p =
      match update_page oracle p with
      | .error e => ([], .pyExn e)
      | .ok r => wrapOk r := rfl

theorem mcp_query_database (env : Env) (oracle : Oracle) (p : JValue) :
    mcp env oracle "query_database" p =
      wrapOk (query_database env oracle (getIfDict p "filter" .null)) := rfl

theorem mcp_retrieve_page (env : Env) (oracle : Oracle) (p : JValue) :
    mcp env oracle "retrieve_page" p =
      (if !(getIfDict p "page_id" .null).truthy then
        ([], .httpError 400 "page_id is required for retrieve_page")
      else wrapOk (retrieve_page oracle (getIfDict p "page_id" .null))) := rfl

theorem mcp_archive_page (env : Env) (oracle : Oracle) (p : JValue) :
    mcp env oracle "archive_page" p =
      (if !(getIfDict p "page_id" .null).truthy then
        ([], .httpError 400 "page_id is required for archive_page")
      else wrapOk (archive_page oracle (getIfDict p "page_id" .null)
        (getIfDict p "archived" (.bool true)).truthy)) := rfl

theorem mcp_delete_block (env : Env) (oracle : Oracle) (p : JValue) :
    mcp env oracle "delete_block" p =
      (if !(getIfDict p "block_id" .null).truthy then
        ([], .httpError 400 "block_id is required for delete_block")
      else wrapOk (delete_block oracle (getIfDict p "block_id" .null))) := rfl

theorem mcp_append_block_children (env : Env) (oracle : Oracle) (p : JValue) :
    mcp env oracle "append_block_children" p =
      (if !(getIfDict p "block_id" .null).truthy ||
          !(getIfDict p "children" .null).isArr then
        ([], .httpError 400
          "block_id and children (list) required for append_block_children")
      else wrapOk (append_block_children oracle (getIfDict p "block_id" .null)
        (getIfDict p "children" .null))) := rfl

theorem mcp_retrieve_block_children (env : Env) (oracle : Oracle) (p : JValue) :
    mcp env oracle "retrieve_block_children" p =
      (if !(getIfDict p "block_id" .null).truthy then
        ([], .httpError 400 "block_id is required for retrieve_block_children")
      else wrapOk (retrieve_block_children oracle (getIfDict p "block_id" .null))) := rfl

theorem mcp_retrieve_database (env : Env) (oracle : Oracle) (p : JValue) :
    mcp env oracle "retrieve_database" p =
      (if !(getIfDict p "database_id" .null).truthy then
        ([], .httpError 400 "database_id is required for retrieve_database")
      else wrapOk (retrieve_database oracle (getIfDict p "database_id" .null))) := rfl

theorem mcp_search (env : Env) (oracle : Oracle) (p : JValue) :
    mcp env oracle "search" p =
      (if !(getIfDict p "query" .null).truthy then
        ([], .httpError 400 "query is required for search")
      else wrapOk (search oracle (getIfDict p "query" .null)
        (getIfDict p "filter" .null) (getIfDict p "sort" .null))) := rfl

theorem mcp_unknown (env : Env) (oracle : Oracle) (p : JValue) (action : String)
    (h : action ∉ registry) :
    mcp env oracle action p =
      ([], .httpError 400 ("unknown action: " ++ action)) := by
  simp only [registry, List.mem_cons, List.not_mem_nil, or_false, not_or] at h
  obtain ⟨h1, h2, h3, h4, h5, h6, h7, h8, h9, h10, h11⟩ := h
  simp only [mcp, if_neg h1, if_neg h2, if_neg h3, if_neg h4, if_neg h5, if_neg h6,
    if_neg h7, if_neg h8, if_neg h9, if_neg h10, if_neg h11]

/-- The dispatcher never produces a 401: every `HTTPException` it raises
has status 400 (the 401 can only come from `verify_token`). -/
theorem mcp_never_401 (env : Env) (oracle : Oracle) (action : String)
    (p : JValue) (d : String) :
    (mcp env oracle action p).2 ≠ .httpError 401 d := by
  by_cases h1 : action = "create_page"
  · subst h1; rw [mcp_create_page]
    rcases hE : pyGetD p "title" (.str "Untitled") <;> simp [wrapOk]
  by_cases h2 : action = "create_task"
  · subst h2; rw [mcp_create_task]
    rcases hE : create_task env oracle p <;> simp [wrapOk]
  by_cases h3 : action = "update_page"
  · subst h3; rw [mcp_update_page]
    rcases hE : update_page oracle p <;> simp [wrapOk]
  by_cases h4 : action = "query_database"
  · subst h4; rw [mcp_query_database]; simp [wrapOk]
  by_cases h5 : action = "retrieve_page"
  · subst h5; rw [mcp_retrieve_page]
    cases hT : (getIfDict p "page_id" .null).truthy <;> simp [hT, wrapOk]
  by_cases h6 : action = "archive_page"
  · subst h6; rw [mcp_archive_page]
    cases hT : (getIfDict p "page_id" .null).truthy <;> simp [hT, wrapOk]
  by_cases h7 : action = "delete_block"
  · subst h7; rw [mcp_delete_block]
    cases hT : (getIfDict p "block_id" .null).truthy <;> simp [hT, wrapOk]
  by_cases h8 : action = "append_block_children"
  · subst h8; rw [mcp_append_block_children]
    cases hT : (getIfDict p "block_id" .null).truthy <;>
      cases hA : (getIfDict p "children" .null).isArr <;> simp [hT, hA, wrapOk]
  by_cases h9 : action = "retrieve_block_children"
  · subst h9; rw [mcp_retrieve_block_children]
    cases hT : (getIfDict p "block_id" .null).truthy <;> simp [hT, wrapOk]
  by_cases h10 : action = "retrieve_database"
  · subst h10; rw [mcp_retrieve_database]
    cases hT : (getIfDict p "database_id" .null).truthy <;> simp [hT, wrapOk]
  by_cases h11 : action = "search"
  · subst h11; rw [mcp_search]
    cases hT : (getIfDict p "query" .null).truthy <;> simp [hT, wrapOk]
  rw [mcp_unknown env oracle p action (by simp [registry, h1, h2, h3, h4, h5, h6, h7, h8, h9, h10, h11])]
  simp

theorem pyStr_str (s : String) : JValue.pyStr (.str s) = s := by
  simp [JValue.pyStr]

/-- When the token gate passes, the endpoint is the bare dispatcher. -/
theorem handle_ok (env : Env) (oracle : Oracle) (cred : Option String)
    (action : String) (p : JValue) (hv : verify_token env cred = .ok ()) :
    handle env oracle cred action p = mcp env oracle action p := by
  unfold handle
  rw [hv]

/-! ### Concrete fixtures for witnesses and counterexamples -/

/-- An environment with nothing configured. -/
def env0 : Env := ⟨none, none, none⟩

/-- An environment with only a gateway secret configured. -/
def envTok : Env := ⟨some "sec", none, none⟩

/-- An environment with only an empty gateway secret configured. -/
def envEmptyTok : Env := ⟨some "", none, none⟩

/-- An environment with only a database id configured. -/
def envDb : Env := ⟨none, none, some "db1"⟩

/-- A remote that answers status 200 with body `null` to every request. -/
def oracle0 : Oracle := fun _ => (200, .null)

/-! ### The claims -/

/-- C3: for every credential: with no gateway secret configured the gate
passes unconditionally; with a non-empty secret configured it passes iff
the credential is present and exactly equals the secret, and otherwise
the endpoint answers 401 before the dispatcher runs (no outbound request,
outcome independent of action and parameters). -/
theorem access_gate_spec (env : Env) (oracle : Oracle) :
    (env.MCP_TOKEN = none → ∀ cred, verify_token env cred = .ok ()) ∧
    (∀ s, s ≠ "" → env.MCP_TOKEN = some s →
      (∀ cred, verify_token env cred = .ok () ↔ cred = some s) ∧
      (∀ cred action p, cred ≠ some s →
        handle env oracle cred action p =
          ([], .httpError 401 "unauthorized"))) := by
  constructor
  · intro h cred
    simp [verify_token, envTruthy, h]
  · intro s hs hset
    have htr : envTruthy (some s) = true := by
      simp [envTruthy, hs]
    constructor
    · intro cred
      cases cred with
      | none => simp [verify_token, hset, htr]
      | some c =>
          by_cases hc : c = s
          · subst hc; simp [verify_token, hset, htr]
          · simp [verify_token, hset, htr, hc]
    · intro cred action p hc
      cases cred with
      | none => simp [handle, verify_token, hset, htr]
      | some c =>
          have hcs : c ≠ s := by
            intro h; exact hc (by rw [h])
          simp [handle, verify_token, hset, htr, hcs]

/-- C3 witness: with secret "sec", the matching credential passes, a
missing credential gets the 401 short-circuit, and with no secret the gate
passes with no credential. -/
theorem access_gate_spec_witness :
    verify_token envTok (some "sec") = .ok () ∧
    handle envTok oracle0 none "retrieve_page" (.obj []) =
      ([], .httpError 401 "unauthorized") ∧
    verify_token env0 none = .ok () := by
  refine ⟨?_, ?_, ?_⟩
  · exact (((access_gate_spec envTok oracle0).2 "sec" (by decide) rfl).1
      (some "sec")).mpr rfl
  · exact ((access_gate_spec envTok oracle0).2 "sec" (by decide) rfl).2
      none "retrieve_page" (.obj []) (by simp)
  · exact (access_gate_spec env0 oracle0).1 rfl none

/-- C9: with `MCP_TOKEN` set to the empty string the gate behaves exactly
as if no secret were configured: every credential passes, the endpoint
behaves as the bare dispatcher, and no request is ever answered 401. -/
theorem empty_token_disables_auth (env : Env) (oracle : Oracle)
    (h : env.MCP_TOKEN = some "") :
    (∀ cred, verify_token env cred = .ok ()) ∧
    (∀ cred action p, handle env oracle cred action p = mcp env oracle action p) ∧
    (∀ cred action p d,
      (handle env oracle cred action p).2 ≠ .httpError 401 d) := by
  have hv : ∀ cred, verify_token env cred = .ok () := by
    intro cred
    simp [verify_token, envTruthy, h]
  have hh : ∀ cred action p,
      handle env oracle cred action p = mcp env oracle action p := by
    intro cred action p
    simp [handle, hv cred]
  refine ⟨hv, hh, ?_⟩
  intro cred action p d
  rw [hh cred action p]
  exact mcp_never_401 env oracle action p d

/-- C9 witness: with the empty secret, a request with no credential
reaches the dispatcher (here: an unknown action answered 400, not 401). -/
theorem empty_token_disables_auth_witness :
    verify_token envEmptyTok none = .ok () ∧
    handle envEmptyTok oracle0 none "nope" .null =
      mcp envEmptyTok oracle0 "nope" .null ∧
    (handle envEmptyTok oracle0 none "nope" .null).2 ≠
      .httpError 401 "unauthorized" := by
  refine ⟨?_, ?_, ?_⟩
  · exact (empty_token_disables_auth envEmptyTok oracle0 rfl).1 none
  · exact (empty_token_disables_auth envEmptyTok oracle0 rfl).2.1 none "nope" .null
  · exact (empty_token_disables_auth envEmptyTok oracle0 rfl).2.2 none "nope" .null
      "unauthorized"

/-- C6: a command whose action is not in the registry is answered
HTTP 400 with detail `"unknown action: <name>"`, and no outbound request
is issued. -/
theorem unknown_action_400 (env : Env) (oracle : Oracle) (cred : Option String)
    (action : String) (p : JValue)
    (hv : verify_token env cred = .ok ()) (ha : action ∉ registry) :
    handle env oracle cred action p =
      ([], .httpError 400 ("unknown action: " ++ action)) := by
  unfold handle
  rw [hv]
  exact mcp_unknown env oracle p action ha

/-- C6 witness: the action "foo" is unknown and answered
`400 "unknown action: foo"` with no outbound request. -/
theorem unknown_action_400_witness :
    handle env0 oracle0 none "foo" .null =
      ([], .httpError 400 ("unknown action: " ++ "foo")) := by
  exact unknown_action_400 env0 oracle0 none "foo" .null rfl (by decide)

/-- C2: `create_task` and `query_database` with no configured
`NOTION_DATABASE_ID`: the request succeeds with the 200 envelope
`{status: "ok", data: {error: ...}}`, no `HTTPException` is raised and no
outbound request is issued. -/
theorem missing_db_soft_error (env : Env) (oracle : Oracle)
    (cred : Option String) (p : JValue)
    (hv : verify_token env cred = .ok ())
    (h : env.NOTION_DATABASE_ID = none) :
    handle env oracle cred "create_task" p =
      ([], .success (okEnvelope
        (.obj [("error", .str "NOTION_DATABASE_ID not set")]))) ∧
    handle env oracle cred "query_database" p =
      ([], .success (okEnvelope
        (.obj [("error", .str "NOTION_DATABASE_ID not set")]))) := by
  have henv : envTruthy env.NOTION_DATABASE_ID = false := by
    simp [envTruthy, h]
  constructor
  · rw [handle_ok env oracle cred _ _ hv, mcp_create_task]
    have hc : create_task env oracle p =
        .ok ([], .obj [("error", .str "NOTION_DATABASE_ID not set")]) := by
      simp [create_task, henv]
    rw [hc]
    rfl
  · rw [handle_ok env oracle cred _ _ hv, mcp_query_database]
    simp [query_database, henv, wrapOk]

/-- C2 witness: with no database id configured, both actions answer the
soft error envelope with no outbound request. -/
theorem missing_db_soft_error_witness :
    handle env0 oracle0 none "create_task" (.obj []) =
      ([], .success (okEnvelope
        (.obj [("error", .str "NOTION_DATABASE_ID not set")]))) ∧
    handle env0 oracle0 none "query_database" (.obj []) =
      ([], .success (okEnvelope
        (.obj [("error", .str "NOTION_DATABASE_ID not set")]))) := by
  exact missing_db_soft_error env0 oracle0 none (.obj []) rfl rfl

/-- C7: a `retrieve_page` command with a non-empty string `page_id` and a
passing gate issues exactly one outbound GET to `pages/<page_id>` and
answers `{status: "ok", data: d}` where `d` is the remote's parsed JSON
body unmodified — the oracle (hence the remote's HTTP status) is
arbitrary. -/
theorem retrieve_page_e2e (env : Env) (oracle : Oracle) (cred : Option String)
    (p : JValue) (pid : String)
    (hv : verify_token env cred = .ok ())
    (hp : getIfDict p "page_id" .null = .str pid) (hne : pid ≠ "") :
    handle env oracle cred "retrieve_page" p =
      ([⟨.get, BASE ++ "/pages/" ++ pid, none⟩],
       .success (okEnvelope
         (oracle ⟨.get, BASE ++ "/pages/" ++ pid, none⟩).2)) := by
  rw [handle_ok env oracle cred _ _ hv, mcp_retrieve_page, hp]
  have ht : (JValue.str pid).truthy = true := by
    simp [JValue.truthy, hne]
  simp [ht, wrapOk, retrieve_page, pyStr_str]

/-- C7 witness: `retrieve_page` with `page_id` "abc123" against a remote
answering `null`. -/
theorem retrieve_page_e2e_witness :
    handle env0 oracle0 none "retrieve_page"
        (.obj [("page_id", .str "abc123")]) =
      ([⟨.get, BASE ++ "/pages/" ++ "abc123", none⟩],
       .success (okEnvelope .null)) := by
  exact retrieve_page_e2e env0 oracle0 none
    (.obj [("page_id", .str "abc123")]) "abc123" rfl rfl (by decide)

/-- C8: `archive_page` with a missing or empty `page_id` answers 400 with
no outbound request; with a non-empty `page_id` and no `archived` field it
issues exactly one outbound PATCH whose payload is exactly
`{"archived": true}`. -/
theorem archive_page_spec (env : Env) (oracle : Oracle) (cred : Option String)
    (kvs : List (String × JValue))
    (hv : verify_token env cred = .ok ()) :
    ((assocLookup kvs "page_id" = none ∨
      assocLookup kvs "page_id" = some (.str "")) →
      handle env oracle cred "archive_page" (.obj kvs) =
        ([], .httpError 400 "page_id is required for archive_page")) ∧
    (∀ pid : String, pid ≠ "" →
      assocLookup kvs "page_id" = some (.str pid) →
      assocLookup kvs "archived" = none →
      handle env oracle cred "archive_page" (.obj kvs) =
        ([⟨.patch, BASE ++ "/pages/" ++ pid,
            some (.obj [("archived", .bool true)])⟩],
         .success (okEnvelope
           (oracle ⟨.patch, BASE ++ "/pages/" ++ pid,
              some (.obj [("archived", .bool true)])⟩).2))) := by
  rw [handle_ok env oracle cred _ _ hv]
  constructor
  · intro h
    rw [mcp_archive_page]
    rcases h with h | h <;> simp [getIfDict, h, JValue.truthy]
  · intro pid hne hp ha
    rw [mcp_archive_page]
    simp [getIfDict, hp, ha, JValue.truthy, hne, wrapOk, archive_page,
      _patch, pyStr_str]

/-- C8 witness: missing `page_id` answers 400; `{"page_id": "x"}` with no
`archived` field issues the PATCH `{"archived": true}`. -/
theorem archive_page_spec_witness :
    handle env0 oracle0 none "archive_page" (.obj []) =
      ([], .httpError 400 "page_id is required for archive_page") ∧
    handle env0 oracle0 none "archive_page" (.obj [("page_id", .str "x")]) =
      ([⟨.patch, BASE ++ "/pages/" ++ "x",
          some (.obj [("archived", .bool true)])⟩],
       .success (okEnvelope .null)) := by
  constructor
  · exact (archive_page_spec env0 oracle0 none [] rfl).1 (Or.inl rfl)
  · exact (archive_page_spec env0 oracle0 none [("page_id", .str "x")] rfl).2
      "x" (by decide) rfl rfl

/-- C10: `archive_page` with an `archived` field sends the Python
truthiness coercion of the supplied value: any truthy value — including
the non-empty string "false" — yields `{"archived": true}`, any falsy
value yields `{"archived": false}`. -/
theorem archive_page_truthiness (env : Env) (oracle : Oracle)
    (cred : Option String) (kvs : List (String × JValue)) (pid : String)
    (v : JValue)
    (hv : verify_token env cred = .ok ())
    (hp : assocLookup kvs "page_id" = some (.str pid)) (hne : pid ≠ "")
    (ha : assocLookup kvs "archived" = some v) :
    handle env oracle cred "archive_page" (.obj kvs) =
      ([⟨.patch, BASE ++ "/pages/" ++ pid,
          some (.obj [("archived", .bool v.truthy)])⟩],
       .success (okEnvelope
         (oracle ⟨.patch, BASE ++ "/pages/" ++ pid,
            some (.obj [("archived", .bool v.truthy)])⟩).2)) := by
  rw [handle_ok env oracle cred _ _ hv, mcp_archive_page]
  simp [getIfDict, hp, ha, JValue.truthy, hne, wrapOk, archive_page,
    _patch, pyStr_str]

/-- C10 witness: the string "false" is truthy and yields
`{"archived": true}`; the boolean false yields `{"archived": false}`. -/
theorem archive_page_truthiness_witness :
    handle env0 oracle0 none "archive_page"
        (.obj [("page_id", .str "x"), ("archived", .str "false")]) =
      ([⟨.patch, BASE ++ "/pages/" ++ "x",
          some (.obj [("archived", .bool true)])⟩],
       .success (okEnvelope .null)) ∧
    handle env0 oracle0 none "archive_page"
        (.obj [("page_id", .str "x"), ("archived", .bool false)]) =
      ([⟨.patch, BASE ++ "/pages/" ++ "x",
          some (.obj [("archived", .bool false)])⟩],
       .success (okEnvelope .null)) := by
  constructor
  · exact archive_page_truthiness env0 oracle0 none
      [("page_id", .str "x"), ("archived", .str "false")] "x" (.str "false")
      rfl rfl (by decide) rfl
  · exact archive_page_truthiness env0 oracle0 none
      [("page_id", .str "x"), ("archived", .bool false)] "x" (.bool false)
      rfl rfl (by decide) rfl

/-- The payload `search` builds: `{"query": query}`, with `filter` and
`sort` appended only when truthy (mirrors the body of `search`). -/
def searchPayload (query filter sort : JValue) : List (String × JValue) :=
  let payload : List (String × JValue) := [("query", query)]
  let payload := if filter.truthy then payload ++ [("filter", filter)] else payload
  if sort.truthy then payload ++ [("sort", sort)] else payload

theorem search_eq (oracle : Oracle) (query filter sort : JValue) :
    search oracle query filter sort =
      _post oracle (BASE ++ "/search") (.obj (searchPayload query filter sort)) := rfl

/-- C5: `search` with an empty or missing `query` answers 400 with no
outbound request; with a non-empty string query it issues exactly one
outbound POST to `/search` whose payload contains the key "query" with
the given query, contains no key other than "query", "filter" and "sort",
and contains "filter" / "sort" only when that field was supplied in the
parameters. -/
theorem search_spec (env : Env) (oracle : Oracle) (cred : Option String)
    (kvs : List (String × JValue))
    (hv : verify_token env cred = .ok ()) :
    ((assocLookup kvs "query" = none ∨
      assocLookup kvs "query" = some (.str "")) →
      handle env oracle cred "search" (.obj kvs) =
        ([], .httpError 400 "query is required for search")) ∧
    (∀ q : String, q ≠ "" → assocLookup kvs "query" = some (.str q) →
      handle env oracle cred "search" (.obj kvs) =
        ([⟨.post, BASE ++ "/search",
            some (.obj (searchPayload (.str q)
              ((assocLookup kvs "filter").getD .null)
              ((assocLookup kvs "sort").getD .null)))⟩],
         .success (okEnvelope
           (oracle ⟨.post, BASE ++ "/search",
              some (.obj (searchPayload (.str q)
                ((assocLookup kvs "filter").getD .null)
                ((assocLookup kvs "sort").getD .null)))⟩).2)) ∧
      assocLookup (searchPayload (.str q)
        ((assocLookup kvs "filter").getD .null)
        ((assocLookup kvs "sort").getD .null)) "query" = some (.str q) ∧
      (∀ k, k ∈ (searchPayload (.str q)
          ((assocLookup kvs "filter").getD .null)
          ((assocLookup kvs "sort").getD .null)).map Prod.fst →
        k ∈ (["query", "filter", "sort"] : List String)) ∧
      (assocLookup (searchPayload (.str q)
          ((assocLookup kvs "filter").getD .null)
          ((assocLookup kvs "sort").getD .null)) "filter" ≠ none →
        assocLookup kvs "filter" ≠ none) ∧
      (assocLookup (searchPayload (.str q)
          ((assocLookup kvs "filter").getD .null)
          ((assocLookup kvs "sort").getD .null)) "sort" ≠ none →
        assocLookup kvs "sort" ≠ none)) := by
  rw [handle_ok env oracle cred _ _ hv]
  constructor
  · intro h
    rw [mcp_search]
    rcases h with h | h <;> simp [getIfDict, h, JValue.truthy]
  · intro q hq hlook
    have ht : (JValue.str q).truthy = true := by
      simp [JValue.truthy, hq]
    refine ⟨?_, ?_, ?_, ?_, ?_⟩
    · rw [mcp_search]
      simp only [getIfDict, hlook, Option.getD_some, ht, Bool.not_true,
        Bool.false_eq_true, if_false, search_eq, _post, wrapOk]
    · by_cases hF : ((assocLookup kvs "filter").getD JValue.null).truthy <;>
        by_cases hS : ((assocLookup kvs "sort").getD JValue.null).truthy <;>
        simp [searchPayload, hF, hS, assocLookup]
    · intro k hk
      by_cases hF : ((assocLookup kvs "filter").getD JValue.null).truthy <;>
        by_cases hS : ((assocLookup kvs "sort").getD JValue.null).truthy <;>
        simp [searchPayload, hF, hS] at hk <;> simp <;> tauto
    · intro hpl
      rcases hfk : assocLookup kvs "filter" with _ | w
      · exfalso
        rw [hfk] at hpl
        have hFt : ((none : Option JValue).getD JValue.null).truthy = false := rfl
        by_cases hS : ((assocLookup kvs "sort").getD JValue.null).truthy <;>
          simp [searchPayload, hFt, hS, assocLookup] at hpl
      · simp
    · intro hpl
      rcases hsk : assocLookup kvs "sort" with _ | w
      · exfalso
        rw [hsk] at hpl
        have hSt : ((none : Option JValue).getD JValue.null).truthy = false := rfl
        by_cases hF : ((assocLookup kvs "filter").getD JValue.null).truthy <;>
          simp [searchPayload, hSt, hF, assocLookup] at hpl
      · simp

/-- C5 witness: a missing query answers 400; query "abc" with neither
filter nor sort supplied sends the payload with exactly the key
"query". -/
theorem search_spec_witness :
    handle env0 oracle0 none "search" (.obj []) =
      ([], .httpError 400 "query is required for search") ∧
    handle env0 oracle0 none "search" (.obj [("query", .str "abc")]) =
      ([⟨.post, BASE ++ "/search", some (.obj [("query", .str "abc")])⟩],
       .success (okEnvelope .null)) := by
  constructor
  · exact (search_spec env0 oracle0 none [] rfl).1 (Or.inl rfl)
  · exact ((search_spec env0 oracle0 none [("query", .str "abc")] rfl).2
      "abc" (by decide) rfl).1

/-- C1 counterexample: an `update_page` command with both fields missing
is NOT answered with an HTTP 400 BadRequest: the dispatcher raises
`KeyError("page_id")` (an unhandled exception — `statusCode` is `none`,
so no `HTTPException` of any status is produced), though indeed no
outbound request is issued. -/
theorem update_page_no_badrequest :
    mcp env0 oracle0 "update_page" (.obj []) =
      ([], .pyExn (.keyError "page_id")) ∧
    (mcp env0 oracle0 "update_page" (.obj [])).2.statusCode = none := by
  constructor <;> rfl

/-- C1 amended: `update_page` with parameters missing `page_id` or
`properties` raises a `KeyError` naming the first missing of the two
fields — an unhandled exception surfacing as a server error, not an
HTTP 400 BadRequest — and no outbound request is issued. -/
theorem update_page_missing_field_keyerror (env : Env) (oracle : Oracle)
    (cred : Option String) (kvs : List (String × JValue))
    (hv : verify_token env cred = .ok ())
    (h : assocLookup kvs "page_id" = none ∨
      assocLookup kvs "properties" = none) :
    handle env oracle cred "update_page" (.obj kvs) =
      ([], .pyExn (.keyError
        (match assocLookup kvs "page_id" with
         | none => "page_id"
         | some _ => "properties"))) := by
  rw [handle_ok env oracle cred _ _ hv, mcp_update_page]
  rcases hpk : assocLookup kvs "page_id" with _ | w
  · simp [update_page, pyIndex, hpk]
  · rcases h with h | h
    · rw [hpk] at h
      exact absurd h (by simp)
    · simp [update_page, pyIndex, hpk, h]

/-- C1 amended witness: with empty parameters the KeyError names
`page_id`; with `page_id` supplied (as null) and `properties` missing it
names `properties`; neither issues an outbound request. -/
theorem update_page_missing_field_keyerror_witness :
    handle env0 oracle0 none "update_page" (.obj []) =
      ([], .pyExn (.keyError "page_id")) ∧
    handle env0 oracle0 none "update_page" (.obj [("page_id", .null)]) =
      ([], .pyExn (.keyError "properties")) := by
  constructor
  · exact update_page_missing_field_keyerror env0 oracle0 none [] rfl
      (Or.inl rfl)
  · exact update_page_missing_field_keyerror env0 oracle0 none
      [("page_id", .null)] rfl (Or.inr rfl)

/-- C4 counterexample: `query_database` with the non-mapping (string,
truthy) filter value "x": the dispatcher does not treat it as absent —
the value reaches the outbound payload verbatim. -/
theorem filter_passthrough :
    mcp envDb oracle0 "query_database" (.obj [("filter", .str "x")]) =
      ([⟨.post, BASE ++ "/databases/" ++ "db1" ++ "/query",
          some (.obj [("filter", .str "x")])⟩],
       .success (okEnvelope .null)) ∧
    (JValue.str "x").isObj = false := by
  constructor <;> rfl

/-- C4 amended: for a `query_database` command whose `filter` field
carries a non-mapping value (with a configured database id), the
dispatcher raises no error — the command succeeds with exactly one
outbound POST — and the value is treated as absent (omitted from the
payload) exactly when it is falsy, while a truthy value is passed through
into the outbound payload. -/
theorem filter_passthrough_amended (env : Env) (oracle : Oracle)
    (cred : Option String) (kvs : List (String × JValue)) (v : JValue)
    (db : String)
    (hv : verify_token env cred = .ok ())
    (hdb : env.NOTION_DATABASE_ID = some db) (hdbne : db ≠ "")
    (hf : assocLookup kvs "filter" = some v) (_hno : v.isObj = false) :
    handle env oracle cred "query_database" (.obj kvs) =
      ([⟨.post, BASE ++ "/databases/" ++ db ++ "/query",
          some (if v.truthy then .obj [("filter", v)] else .obj [])⟩],
       .success (okEnvelope
         (oracle ⟨.post, BASE ++ "/databases/" ++ db ++ "/query",
            some (if v.truthy then .obj [("filter", v)] else .obj [])⟩).2)) := by
  rw [handle_ok env oracle cred _ _ hv, mcp_query_database]
  have henv : envTruthy (some db) = true := by
    simp [envTruthy, hdbne]
  simp [getIfDict, hf, query_database, hdb, henv, wrapOk, _post]

/-- C4 amended witness: the truthy non-mapping filter "x" is passed
through; the falsy non-mapping filter 0 is omitted; neither errors. -/
theorem filter_passthrough_amended_witness :
    handle envDb oracle0 none "query_database" (.obj [("filter", .str "x")]) =
      ([⟨.post, BASE ++ "/databases/" ++ "db1" ++ "/query",
          some (.obj [("filter", .str "x")])⟩],
       .success (okEnvelope .null)) ∧
    handle envDb oracle0 none "query_database" (.obj [("filter", .num 0)]) =
      ([⟨.post, BASE ++ "/databases/" ++ "db1" ++ "/query",
          some (.obj [])⟩],
       .success (okEnvelope .null)) := by
  constructor
  · exact filter_passthrough_amended envDb oracle0 none
      [("filter", .str "x")] (.str "x") "db1" rfl rfl (by decide) rfl rfl
  · exact filter_passthrough_amended envDb oracle0 none
      [("filter", .num 0)] (.num 0) "db1" rfl rfl (by decide) rfl rfl

end NotionMCP
